import Mathlib

/-!
Shallow embedding of the calculation engine of `src/app.py` (the Solar
Productive Use Calculator).  The engine is the arithmetic pipeline executed
under the `if calculate_btn:` block: catalog lookup, energy and sizing
formulas, cost aggregation in USD, loan amortization, viability verdict and
payback, with the exchange rate applied only when rendering metric cards.
Python floats are modelled as exact rationals; `math.ceil` is `Int.ceil`.
-/

namespace Solar

/-- Catalog entry for a productive-use appliance: rated power (kW),
price (USD) and processing speed (kg/hr), mirroring `power_map`,
`price_map_usd` and `processing_speed_map` in the source. -/
structure Appliance where
  power : ℚ
  price_usd : ℚ
  processing_speed : ℚ
deriving DecidableEq

/-- The catalog row for "Mill 2kW": 2.0 kW, 600 USD, 100 kg/hr. -/
def mill2kW : Appliance := ⟨2, 600, 100⟩

/-- The catalog row for "Mill 3kW": 3.0 kW, 800 USD, 150 kg/hr. -/
def mill3kW : Appliance := ⟨3, 800, 150⟩

/-- The "System Rating" selector: AC or DC. -/
inductive SystemType where
  | AC
  | DC
deriving DecidableEq

/-- `panel_wattage_kw = 0.5` (a 500 W panel). -/
def panel_wattage_kw : ℚ := 1/2

/-- `panel_cost = 50` USD per panel. -/
def panel_cost : ℚ := 50

/-- The numeric and enum inputs read from the form widgets.  `interest_rate`
is the widget value already divided by 100, as in the source. -/
structure Inputs where
  appliance : Appliance
  systemType : SystemType
  runtime_per_day : ℚ
  operating_days : ℚ
  income_per_kg : ℚ
  sun_hours : ℚ
  system_efficiency : ℚ
  battery_hours : ℚ
  daily_operating_cost : ℚ
  loan_term_years : ℕ
  interest_rate : ℚ
  deposit : ℚ
  install_increase : ℚ
deriving DecidableEq

/-- The ranges enforced by the input widgets (`min_value` / `max_value`
arguments of `st.number_input` and the two selectboxes): these are the only
inputs the calculation block can receive. -/
def ValidInputs (i : Inputs) : Prop :=
  (i.appliance = mill2kW ∨ i.appliance = mill3kW) ∧
  1 ≤ i.runtime_per_day ∧ 1 ≤ i.operating_days ∧ 0 ≤ i.income_per_kg ∧
  1 ≤ i.sun_hours ∧ 1 ≤ i.system_efficiency ∧ i.system_efficiency ≤ 100 ∧
  0 ≤ i.battery_hours ∧ 1 ≤ i.loan_term_years ∧ 0 ≤ i.interest_rate ∧
  0 ≤ i.deposit ∧ 0 ≤ i.install_increase ∧ i.install_increase ≤ 100

instance (i : Inputs) : Decidable (ValidInputs i) := by
  unfold ValidInputs
  infer_instance

/-- `specific_efficiency = processing_speed / power` (kg per kWh). -/
def specific_efficiency (i : Inputs) : ℚ :=
  i.appliance.processing_speed / i.appliance.power

/-- `energy_required_per_day = runtime_per_day * power` (kWh). -/
def energy_required_per_day (i : Inputs) : ℚ :=
  i.runtime_per_day * i.appliance.power

/-- `energy_production = energy_required_per_day / (system_efficiency / 100)`. -/
def energy_production (i : Inputs) : ℚ :=
  energy_required_per_day i / (i.system_efficiency / 100)

/-- `production_per_day = specific_efficiency * energy_required_per_day`. -/
def production_per_day (i : Inputs) : ℚ :=
  specific_efficiency i * energy_required_per_day i

/-- `income_per_day = income_per_kg * production_per_day`. -/
def income_per_day (i : Inputs) : ℚ :=
  i.income_per_kg * production_per_day i

/-- `gross_income_per_year = income_per_day * operating_days`. -/
def gross_income_per_year (i : Inputs) : ℚ :=
  income_per_day i * i.operating_days

/-- `net_income_per_day = income_per_day - daily_operating_cost`. -/
def net_income_per_day (i : Inputs) : ℚ :=
  income_per_day i - i.daily_operating_cost

/-- `panel_energy_per_day = panel_wattage_kw * sun_hours`. -/
def panel_energy_per_day (i : Inputs) : ℚ :=
  panel_wattage_kw * i.sun_hours

/-- `panels_required = math.ceil(energy_production / panel_energy_per_day)`. -/
def panels_required (i : Inputs) : ℤ :=
  ⌈energy_production i / panel_energy_per_day i⌉

/-- `solar_panel_cost = panels_required * panel_cost` (USD). -/
def solar_panel_cost (i : Inputs) : ℚ :=
  (panels_required i : ℚ) * panel_cost

/-- `recommended_solar_size = math.ceil((energy_production / sun_hours) * 2) / 2`. -/
def recommended_solar_size (i : Inputs) : ℚ :=
  (⌈energy_production i / i.sun_hours * 2⌉ : ℚ) / 2

/-- `battery_capacity = recommended_solar_size * battery_hours` (kWh). -/
def battery_capacity (i : Inputs) : ℚ :=
  recommended_solar_size i * i.battery_hours

/-- Inverter cost: `recommended_solar_size * 100` USD on an AC system,
otherwise it keeps its initial value 0. -/
def inverter_cost (i : Inputs) : ℚ :=
  match i.systemType with
  | SystemType.AC => recommended_solar_size i * 100
  | SystemType.DC => 0

/-- Controller cost: `recommended_solar_size * 50` USD on a DC system,
otherwise it keeps its initial value 0. -/
def controller_cost (i : Inputs) : ℚ :=
  match i.systemType with
  | SystemType.AC => 0
  | SystemType.DC => recommended_solar_size i * 50

/-- `battery_cost = battery_capacity * 300` (USD). -/
def battery_cost (i : Inputs) : ℚ :=
  battery_capacity i * 300

/-- `fob_subtotal_usd = price_usd + solar_panel_cost + inverter_cost +
controller_cost + battery_cost`. -/
def fob_subtotal_usd (i : Inputs) : ℚ :=
  i.appliance.price_usd + solar_panel_cost i + inverter_cost i +
    controller_cost i + battery_cost i

/-- `install_multiplier = 1 + install_increase / 100`. -/
def install_multiplier (i : Inputs) : ℚ :=
  1 + i.install_increase / 100

/-- `total_with_import_usd = fob_subtotal_usd * install_multiplier`. -/
def total_with_import_usd (i : Inputs) : ℚ :=
  fob_subtotal_usd i * install_multiplier i

/-- `loan_principal_usd = total_with_import_usd - deposit`. -/
def loan_principal_usd (i : Inputs) : ℚ :=
  total_with_import_usd i - i.deposit

/-- `months = loan_term_years * 12`. -/
def months (i : Inputs) : ℕ :=
  i.loan_term_years * 12

/-- `monthly_rate = interest_rate / 12`. -/
def monthly_rate (i : Inputs) : ℚ :=
  i.interest_rate / 12

/-- The two-branch loan payment: the amortizing formula
`principal * rate / (1 - (1 + rate) ** (-months))` when `monthly_rate > 0`,
else the simple division `principal / months`. -/
def monthly_repayment_usd (i : Inputs) : ℚ :=
  if 0 < monthly_rate i then
    loan_principal_usd i * monthly_rate i /
      (1 - (1 + monthly_rate i) ^ (-(months i : ℤ)))
  else
    loan_principal_usd i / (months i : ℚ)

/-- `total_repayment_usd = months * monthly_repayment_usd`. -/
def total_repayment_usd (i : Inputs) : ℚ :=
  (months i : ℚ) * monthly_repayment_usd i

/-- `total_interest_paid_usd = total_repayment_usd - loan_principal_usd`. -/
def total_interest_paid_usd (i : Inputs) : ℚ :=
  total_repayment_usd i - loan_principal_usd i

/-- `annual_repayment_usd = monthly_repayment_usd * 12`. -/
def annual_repayment_usd (i : Inputs) : ℚ :=
  monthly_repayment_usd i * 12

/-- `daily_repayment_usd = annual_repayment_usd / 365`. -/
def daily_repayment_usd (i : Inputs) : ℚ :=
  annual_repayment_usd i / 365

/-- `repayment_percentage = (daily_repayment_usd / income_per_day) * 100` when
`income_per_day > 0`, else 0 by policy. -/
def repayment_percentage (i : Inputs) : ℚ :=
  if 0 < income_per_day i then daily_repayment_usd i / income_per_day i * 100
  else 0

/-- The three-state outcome rendered by the viability block: `viable_business`
true with text "Yes" (Viable), false with text "No" (NotViable), or the
warning text "N/A" (NotApplicable). -/
inductive Viability where
  | Viable
  | NotViable
  | NotApplicable
deriving DecidableEq

/-- The viability branch of the source: when `net_income_per_day > 0 and
daily_repayment_usd > 0`, `viable_business = net_income_per_day >=
daily_repayment_usd` (Yes/No); otherwise the result is "N/A". -/
def viability (i : Inputs) : Viability :=
  if 0 < net_income_per_day i ∧ 0 < daily_repayment_usd i then
    if daily_repayment_usd i ≤ net_income_per_day i then Viability.Viable
    else Viability.NotViable
  else Viability.NotApplicable

/-- `surplus = net_income_per_day - daily_repayment_usd`, shown only when
`viable_business` holds. -/
def daily_surplus (i : Inputs) : ℚ :=
  net_income_per_day i - daily_repayment_usd i

/-- `payback_years = total_with_import_usd / (net_income_per_day *
operating_days)`, computed only under the guard `viable_business and
annual_repayment_usd > 0`. -/
def payback_years (i : Inputs) : ℚ :=
  total_with_import_usd i / (net_income_per_day i * i.operating_days)

/-- The currency conversion each metric card applies at render time:
`value_usd * rate` (the subsequent `round(.., 1)` is string formatting). -/
def display_value (usd rate : ℚ) : ℚ := usd * rate

/-- All USD-denominated quantities computed by the calculation block, in
source order. -/
def usd_quantities (i : Inputs) : List ℚ :=
  [energy_required_per_day i, energy_production i, production_per_day i,
   (panels_required i : ℚ), recommended_solar_size i, battery_capacity i,
   i.appliance.price_usd, solar_panel_cost i, inverter_cost i,
   controller_cost i, battery_cost i, fob_subtotal_usd i,
   total_with_import_usd i, loan_principal_usd i, monthly_repayment_usd i,
   total_repayment_usd i, total_interest_paid_usd i, annual_repayment_usd i,
   daily_repayment_usd i, repayment_percentage i]

/-- The money values the metric cards display, in USD, before conversion. -/
def displayed_money_usd (i : Inputs) : List ℚ :=
  [net_income_per_day i, i.appliance.price_usd, solar_panel_cost i,
   inverter_cost i, controller_cost i, battery_cost i, fob_subtotal_usd i,
   total_with_import_usd i, loan_principal_usd i, monthly_repayment_usd i,
   total_interest_paid_usd i, income_per_day i, daily_repayment_usd i]

/-- The output of one full run of the calculation block: the internal USD
quantities, the viability verdict, and the converted display values. -/
structure RunResult where
  internal_usd : List ℚ
  verdict : Viability
  display : List ℚ
deriving DecidableEq

/-- One full run of the `if calculate_btn:` block with a given exchange
`rate`: every calculation is done in USD, and `rate` is used only by the
final `display_value` conversion of the rendered money values. -/
def run_calculation (i : Inputs) (rate : ℚ) : RunResult :=
  ⟨usd_quantities i, viability i,
   (displayed_money_usd i).map (fun v => display_value v rate)⟩

/-- The §8 scenario: Mill 2kW, AC, runtime 4 h, 250 operating days,
income 5/140 USD/kg, 4 sun hours, 80 % efficiency, 1 battery hour,
10 USD/day operating cost, 3-year loan at 15 % p.a., no deposit,
100 % install increase. -/
def scenario : Inputs :=
  ⟨mill2kW, SystemType.AC, 4, 250, 5/140, 4, 80, 1, 10, 3, 15/100, 0, 100⟩

/-- The same scenario with a zero interest rate (used as a concrete viable
input). -/
def scenario0 : Inputs :=
  ⟨mill2kW, SystemType.AC, 4, 250, 5/140, 4, 80, 1, 10, 3, 0, 0, 100⟩

/-- The §8 scenario with a 10000 USD deposit, which exceeds the 3700 USD
installed total. -/
def deposit_exceeds_input : Inputs :=
  ⟨mill2kW, SystemType.AC, 4, 250, 5/140, 4, 80, 1, 10, 3, 0, 10000, 100⟩

lemma viability_eq_viable (i : Inputs) :
    viability i = Viability.Viable ↔
      0 < net_income_per_day i ∧ 0 < daily_repayment_usd i ∧
        daily_repayment_usd i ≤ net_income_per_day i := by
  unfold viability
  split_ifs with h1 h2
  · exact iff_of_true rfl ⟨h1.1, h1.2, h2⟩
  · exact iff_of_false (by simp) (fun hc => h2 hc.2.2)
  · exact iff_of_false (by simp) (fun hc => h1 ⟨hc.1, hc.2.1⟩)

lemma viability_eq_notApplicable (i : Inputs) :
    viability i = Viability.NotApplicable ↔
      net_income_per_day i ≤ 0 ∨ daily_repayment_usd i ≤ 0 := by
  unfold viability
  split_ifs with h1 h2
  · exact iff_of_false (by simp)
      (by rcases h1 with ⟨ha, hb⟩; rintro (hc | hc) <;> linarith)
  · exact iff_of_false (by simp)
      (by rcases h1 with ⟨ha, hb⟩; rintro (hc | hc) <;> linarith)
  · refine iff_of_true rfl ?_
    rcases not_and_or.mp h1 with hc | hc
    · exact Or.inl (le_of_not_lt hc)
    · exact Or.inr (le_of_not_lt hc)

lemma viability_eq_notViable (i : Inputs) :
    viability i = Viability.NotViable ↔
      0 < net_income_per_day i ∧ 0 < daily_repayment_usd i ∧
        net_income_per_day i < daily_repayment_usd i := by
  unfold viability
  split_ifs with h1 h2
  · exact iff_of_false (by simp) (fun hc => absurd h2 (not_le_of_lt hc.2.2))
  · exact iff_of_true rfl ⟨h1.1, h1.2, lt_of_not_le h2⟩
  · exact iff_of_false (by simp) (fun hc => h1 ⟨hc.1, hc.2.1⟩)

/-- Claim C1: the viability outcome is three-state.  For every input the
result is Viable iff `net_income_per_day > 0` and `daily_repayment > 0` and
`net_income_per_day >= daily_repayment`; it is NotApplicable (a state
distinct from NotViable) exactly when `net_income_per_day <= 0` or
`daily_repayment <= 0`; otherwise it is NotViable. -/
theorem viability_three_state (i : Inputs) :
    (viability i = Viability.Viable ↔
      0 < net_income_per_day i ∧ 0 < daily_repayment_usd i ∧
        daily_repayment_usd i ≤ net_income_per_day i) ∧
    (viability i = Viability.NotApplicable ↔
      net_income_per_day i ≤ 0 ∨ daily_repayment_usd i ≤ 0) ∧
    (viability i = Viability.NotViable ↔
      0 < net_income_per_day i ∧ 0 < daily_repayment_usd i ∧
        net_income_per_day i < daily_repayment_usd i) ∧
    Viability.NotApplicable ≠ Viability.NotViable :=
  ⟨viability_eq_viable i, viability_eq_notApplicable i,
   viability_eq_notViable i, by simp⟩

/-- Claim C3: on the §8 scenario (Mill 2kW, AC, runtime 4, sun hours 4,
efficiency 80, battery hours 1) the pipeline yields
`energy_required_per_day = 8.0`, `energy_production = 10.0`,
`panels_required = 5`, `recommended_solar_size = 2.5` and
`battery_capacity = 2.5`. -/
theorem scenario_mill2kW_sizing :
    energy_required_per_day scenario = 8 ∧
    energy_production scenario = 10 ∧
    panels_required scenario = 5 ∧
    recommended_solar_size scenario = 5/2 ∧
    battery_capacity scenario = 5/2 := by
  refine ⟨?_, ?_, ?_, ?_, ?_⟩ <;>
    norm_num [battery_capacity, recommended_solar_size, panels_required,
      panel_energy_per_day, panel_wattage_kw, energy_production,
      energy_required_per_day, scenario, mill2kW]

/-- Claim C4: for sun hours and efficiency positive, `panels_required` is the
least integer n with `n * panel_rated_kW * sun_hours >= energy_production`,
where the panel rating is the constant 0.5 kW. -/
theorem panels_required_least (i : Inputs)
    (hs : 0 < i.sun_hours) (he : 0 < i.system_efficiency) :
    panel_wattage_kw = 1/2 ∧
    energy_production i ≤
      (panels_required i : ℚ) * panel_wattage_kw * i.sun_hours ∧
    ∀ n : ℤ, energy_production i ≤ (n : ℚ) * panel_wattage_kw * i.sun_hours →
      panels_required i ≤ n := by
  have hd : 0 < panel_energy_per_day i := by
    unfold panel_energy_per_day panel_wattage_kw
    positivity
  refine ⟨rfl, ?_, ?_⟩
  · have h1 := Int.le_ceil (energy_production i / panel_energy_per_day i)
    rw [div_le_iff₀ hd] at h1
    calc energy_production i
        ≤ (⌈energy_production i / panel_energy_per_day i⌉ : ℚ) *
            panel_energy_per_day i := h1
      _ = (panels_required i : ℚ) * panel_wattage_kw * i.sun_hours := by
          unfold panels_required panel_energy_per_day
          ring
  · intro n hn
    have h2 : energy_production i / panel_energy_per_day i ≤ (n : ℚ) := by
      rw [div_le_iff₀ hd]
      calc energy_production i
          ≤ (n : ℚ) * panel_wattage_kw * i.sun_hours := hn
        _ = (n : ℚ) * panel_energy_per_day i := by
            unfold panel_energy_per_day
            ring
    exact Int.ceil_le.mpr h2

/-- Witness for `panels_required_least` at the §8 scenario: sun hours 4 and
efficiency 80 are positive, and 5 panels are the least sufficient count. -/
theorem panels_required_least_witness :
    ((0:ℚ) < scenario.sun_hours ∧ (0:ℚ) < scenario.system_efficiency) ∧
    (panel_wattage_kw = 1/2 ∧
     energy_production scenario ≤
       (panels_required scenario : ℚ) * panel_wattage_kw * scenario.sun_hours ∧
     ∀ n : ℤ, energy_production scenario ≤
         (n : ℚ) * panel_wattage_kw * scenario.sun_hours →
       panels_required scenario ≤ n) :=
  ⟨⟨by norm_num [scenario], by norm_num [scenario]⟩,
   panels_required_least scenario (by norm_num [scenario])
     (by norm_num [scenario])⟩

/-- Claim C5: for sun hours and efficiency positive,
`recommended_solar_size` is a multiple of 0.5 and satisfies
`recommended_solar_size * sun_hours >= energy_production`. -/
theorem recommended_size_halfstep (i : Inputs)
    (hs : 0 < i.sun_hours) (he : 0 < i.system_efficiency) :
    (∃ k : ℤ, recommended_solar_size i = (k : ℚ) / 2) ∧
    energy_production i ≤ recommended_solar_size i * i.sun_hours := by
  refine ⟨⟨⌈energy_production i / i.sun_hours * 2⌉, rfl⟩, ?_⟩
  have h1 := Int.le_ceil (energy_production i / i.sun_hours * 2)
  have h2 : energy_production i / i.sun_hours ≤ recommended_solar_size i := by
    unfold recommended_solar_size
    linarith
  calc energy_production i
      = energy_production i / i.sun_hours * i.sun_hours :=
        (div_mul_cancel₀ _ (ne_of_gt hs)).symm
    _ ≤ recommended_solar_size i * i.sun_hours :=
        mul_le_mul_of_nonneg_right h2 (le_of_lt hs)

/-- Witness for `recommended_size_halfstep` at the §8 scenario: 2.5 kWp is a
half-kWp multiple and 2.5 * 4 = 10 covers the 10 kWh production. -/
theorem recommended_size_halfstep_witness :
    ((0:ℚ) < scenario.sun_hours ∧ (0:ℚ) < scenario.system_efficiency) ∧
    ((∃ k : ℤ, recommended_solar_size scenario = (k : ℚ) / 2) ∧
     energy_production scenario ≤
       recommended_solar_size scenario * scenario.sun_hours) :=
  ⟨⟨by norm_num [scenario], by norm_num [scenario]⟩,
   recommended_size_halfstep scenario (by norm_num [scenario])
     (by norm_num [scenario])⟩

/-- Claim C8: with at least one month, a zero monthly rate takes the simple
division branch `principal / months` with a nonzero divisor, and the
amortizing divisor `1 - (1 + rate) ** (-months)` is only reached when the
rate is positive, where it is nonzero. -/
theorem zero_rate_simple_division (i : Inputs) (hm : 1 ≤ months i) :
    (monthly_rate i = 0 →
      (months i : ℚ) ≠ 0 ∧
      monthly_repayment_usd i = loan_principal_usd i / (months i : ℚ)) ∧
    (0 < monthly_rate i →
      1 - (1 + monthly_rate i) ^ (-(months i : ℤ)) ≠ 0) := by
  have hm0 : (months i : ℚ) ≠ 0 := Nat.cast_ne_zero.mpr (by omega)
  constructor
  · intro h0
    refine ⟨hm0, ?_⟩
    unfold monthly_repayment_usd
    rw [if_neg (by rw [h0]; exact lt_irrefl 0)]
  · intro hr
    have h1 : (1:ℚ) < 1 + monthly_rate i := by linarith
    have h2 : (1:ℚ) < (1 + monthly_rate i) ^ (months i) :=
      one_lt_pow₀ h1 (by omega)
    have h3 : (1 + monthly_rate i) ^ (-(months i : ℤ)) =
        ((1 + monthly_rate i) ^ (months i))⁻¹ := by
      rw [zpow_neg, zpow_natCast]
    have h4 : ((1 + monthly_rate i) ^ (months i))⁻¹ < 1 :=
      inv_lt_one_of_one_lt₀ h2
    rw [h3]
    intro hEq
    have h5 : ((1 + monthly_rate i) ^ (months i))⁻¹ = 1 := by linarith
    linarith

/-- Witness for `zero_rate_simple_division` at the zero-interest §8 scenario
(36 months). -/
theorem zero_rate_simple_division_witness :
    1 ≤ months scenario0 ∧
    ((monthly_rate scenario0 = 0 →
       (months scenario0 : ℚ) ≠ 0 ∧
       monthly_repayment_usd scenario0 =
         loan_principal_usd scenario0 / (months scenario0 : ℚ)) ∧
     (0 < monthly_rate scenario0 →
       1 - (1 + monthly_rate scenario0) ^ (-(months scenario0 : ℤ)) ≠ 0)) :=
  ⟨by norm_num [months, scenario0],
   zero_rate_simple_division scenario0 (by norm_num [months, scenario0])⟩

/-- Claim C10: a zero annual interest rate accrues zero interest: with at
least one month, in exact arithmetic `total_repayment = months *
(loan_principal / months) = loan_principal`, so `total_interest = 0`. -/
theorem zero_interest_identity (i : Inputs) (h0 : i.interest_rate = 0)
    (hm : 1 ≤ months i) :
    total_repayment_usd i =
      (months i : ℚ) * (loan_principal_usd i / (months i : ℚ)) ∧
    total_repayment_usd i = loan_principal_usd i ∧
    total_interest_paid_usd i = 0 := by
  have hr : monthly_rate i = 0 := by
    unfold monthly_rate
    rw [h0]
    norm_num
  have hm0 : (months i : ℚ) ≠ 0 := Nat.cast_ne_zero.mpr (by omega)
  have h1 : monthly_repayment_usd i = loan_principal_usd i / (months i : ℚ) := by
    unfold monthly_repayment_usd
    rw [if_neg (by rw [hr]; exact lt_irrefl 0)]
  have h2 : total_repayment_usd i = loan_principal_usd i := by
    unfold total_repayment_usd
    rw [h1]
    field_simp
  refine ⟨?_, h2, ?_⟩
  · unfold total_repayment_usd
    rw [h1]
  · unfold total_interest_paid_usd
    rw [h2]
    ring

/-- Witness for `zero_interest_identity` at the zero-interest §8 scenario. -/
theorem zero_interest_identity_witness :
    (scenario0.interest_rate = 0 ∧ 1 ≤ months scenario0) ∧
    (total_repayment_usd scenario0 =
       (months scenario0 : ℚ) *
         (loan_principal_usd scenario0 / (months scenario0 : ℚ)) ∧
     total_repayment_usd scenario0 = loan_principal_usd scenario0 ∧
     total_interest_paid_usd scenario0 = 0) :=
  ⟨⟨by norm_num [scenario0], by norm_num [months, scenario0]⟩,
   zero_interest_identity scenario0 (by norm_num [scenario0])
     (by norm_num [months, scenario0])⟩

/-- Claim C2 evidence: the engine has no input guard.  With the §8 scenario
and a 10000 USD deposit — exceeding the 3700 USD installed total — the
calculation block still completes, silently producing a negative loan
principal (-6300) and a negative monthly payment (-175), instead of raising
any `InvalidInputError`. -/
theorem no_engine_input_guard :
    total_with_import_usd deposit_exceeds_input = 3700 ∧
    deposit_exceeds_input.deposit = 10000 ∧
    loan_principal_usd deposit_exceeds_input = -6300 ∧
    monthly_repayment_usd deposit_exceeds_input = -175 ∧
    viability deposit_exceeds_input = Viability.NotApplicable := by
  have h1 : total_with_import_usd deposit_exceeds_input = 3700 := by
    norm_num [total_with_import_usd, install_multiplier, fob_subtotal_usd,
      solar_panel_cost, panels_required, panel_energy_per_day,
      panel_wattage_kw, inverter_cost, controller_cost, battery_cost,
      battery_capacity, recommended_solar_size, energy_production,
      energy_required_per_day, panel_cost, deposit_exceeds_input, mill2kW]
  have h2 : loan_principal_usd deposit_exceeds_input = -6300 := by
    rw [loan_principal_usd, h1]
    norm_num [deposit_exceeds_input]
  have h3 : monthly_repayment_usd deposit_exceeds_input = -175 := by
    rw [monthly_repayment_usd, if_neg]
    · rw [h2]
      norm_num [months, deposit_exceeds_input]
    · norm_num [monthly_rate, deposit_exceeds_input]
  have h4 : daily_repayment_usd deposit_exceeds_input = -420/73 := by
    rw [daily_repayment_usd, annual_repayment_usd, h3]
    norm_num
  refine ⟨h1, rfl, h2, h3, ?_⟩
  rw [viability_eq_notApplicable, h4]
  norm_num

/-- Claim C6: noninterference of the exchange rate.  Two runs of the
calculation block that differ only in the exchange rate produce identical
USD-denominated internal quantities and the same viability verdict; the rate
enters only as the final multiplication on displayed money values. -/
theorem rate_noninterference (i : Inputs) (r₁ r₂ : ℚ) :
    (run_calculation i r₁).internal_usd = (run_calculation i r₂).internal_usd ∧
    (run_calculation i r₁).verdict = (run_calculation i r₂).verdict ∧
    ∀ r : ℚ, (run_calculation i r).display =
      (displayed_money_usd i).map (fun v => v * r) :=
  ⟨rfl, rfl, fun _ => rfl⟩

/-- Replace the `income_per_kg` field of an input record, all other fields
unchanged. -/
def set_income_per_kg (i : Inputs) (k : ℚ) : Inputs :=
  ⟨i.appliance, i.systemType, i.runtime_per_day, i.operating_days, k,
   i.sun_hours, i.system_efficiency, i.battery_hours, i.daily_operating_cost,
   i.loan_term_years, i.interest_rate, i.deposit, i.install_increase⟩

lemma net_income_eq (i : Inputs) :
    net_income_per_day i =
      i.income_per_kg * production_per_day i - i.daily_operating_cost := rfl

lemma set_income_production (i : Inputs) (k : ℚ) :
    production_per_day (set_income_per_kg i k) = production_per_day i := rfl

lemma set_income_daily_repayment (i : Inputs) (k : ℚ) :
    daily_repayment_usd (set_income_per_kg i k) = daily_repayment_usd i := rfl

lemma production_nonneg (i : Inputs) (hv : ValidInputs i) :
    0 ≤ production_per_day i := by
  obtain ⟨happ, hrt, -⟩ := hv
  unfold production_per_day specific_efficiency energy_required_per_day
  rcases happ with h | h <;> rw [h] <;>
    norm_num [mill2kW, mill3kW] <;> linarith

/-- Claim C7: viability is monotone in `income_per_kg`.  For valid widget
inputs, raising `income_per_kg` with every other input fixed never turns a
Viable verdict into NotViable. -/
theorem viability_monotone_income (i : Inputs) (k' : ℚ) (hv : ValidInputs i)
    (hk : i.income_per_kg ≤ k') (hV : viability i = Viability.Viable) :
    viability (set_income_per_kg i k') ≠ Viability.NotViable := by
  obtain ⟨hnet, hdaily, hle⟩ := (viability_eq_viable i).mp hV
  have hprod := production_nonneg i hv
  have hmono : net_income_per_day i ≤
      net_income_per_day (set_income_per_kg i k') := by
    rw [net_income_eq i, net_income_eq (set_income_per_kg i k'),
      set_income_production]
    have h1 := mul_le_mul_of_nonneg_right hk hprod
    unfold set_income_per_kg
    dsimp only
    linarith
  have hV' : viability (set_income_per_kg i k') = Viability.Viable := by
    rw [viability_eq_viable, set_income_daily_repayment]
    exact ⟨by linarith, hdaily, by linarith⟩
  rw [hV']
  simp

lemma power_pos (i : Inputs) (hv : ValidInputs i) : 0 < i.appliance.power := by
  rcases hv.1 with h | h <;> rw [h] <;> norm_num [mill2kW, mill3kW]

lemma price_pos (i : Inputs) (hv : ValidInputs i) :
    0 < i.appliance.price_usd := by
  rcases hv.1 with h | h <;> rw [h] <;> norm_num [mill2kW, mill3kW]

lemma energy_production_pos (i : Inputs) (hv : ValidInputs i) :
    0 < energy_production i := by
  have hp := power_pos i hv
  have hrt := hv.2.1
  have heff1 := hv.2.2.2.2.2.1
  unfold energy_production energy_required_per_day
  have hreq : 0 < i.runtime_per_day * i.appliance.power :=
    mul_pos (by linarith) hp
  have heff : 0 < i.system_efficiency / 100 := by linarith
  exact div_pos hreq heff

lemma recommended_pos (i : Inputs) (hv : ValidInputs i) :
    0 < recommended_solar_size i := by
  have hE := energy_production_pos i hv
  have hsun : (0:ℚ) < i.sun_hours := by
    have := hv.2.2.2.2.1
    linarith
  unfold recommended_solar_size
  have h1 : (0:ℚ) < energy_production i / i.sun_hours * 2 := by positivity
  have h2 : 0 < ⌈energy_production i / i.sun_hours * 2⌉ := Int.ceil_pos.mpr h1
  have h3 : (0:ℚ) < (⌈energy_production i / i.sun_hours * 2⌉ : ℚ) := by
    exact_mod_cast h2
  linarith

lemma panels_cost_pos (i : Inputs) (hv : ValidInputs i) :
    0 < solar_panel_cost i := by
  have hE := energy_production_pos i hv
  have hsun : (0:ℚ) < i.sun_hours := by
    have := hv.2.2.2.2.1
    linarith
  have hd : 0 < panel_energy_per_day i := by
    unfold panel_energy_per_day panel_wattage_kw
    positivity
  have h1 : 0 < panels_required i :=
    Int.ceil_pos.mpr (div_pos hE hd)
  have h2 : (0:ℚ) < (panels_required i : ℚ) := by exact_mod_cast h1
  unfold solar_panel_cost panel_cost
  positivity

lemma inverter_controller_nonneg (i : Inputs) (hv : ValidInputs i) :
    0 ≤ inverter_cost i ∧ 0 ≤ controller_cost i := by
  have hrec := recommended_pos i hv
  unfold inverter_cost controller_cost
  rcases i.systemType <;> constructor <;> simp <;> linarith

lemma battery_cost_nonneg (i : Inputs) (hv : ValidInputs i) :
    0 ≤ battery_cost i := by
  have hrec := recommended_pos i hv
  have hbat : (0:ℚ) ≤ i.battery_hours := hv.2.2.2.2.2.2.2.1
  unfold battery_cost battery_capacity
  positivity

lemma installed_pos (i : Inputs) (hv : ValidInputs i) :
    0 < total_with_import_usd i := by
  have hpr := price_pos i hv
  have hpc := panels_cost_pos i hv
  have hic := inverter_controller_nonneg i hv
  have hbc := battery_cost_nonneg i hv
  have hfob : 0 < fob_subtotal_usd i := by
    unfold fob_subtotal_usd
    rcases hic with ⟨h1, h2⟩
    linarith
  have hinst : (0:ℚ) ≤ i.install_increase := hv.2.2.2.2.2.2.2.2.2.2.2.1
  have hmul : 0 < install_multiplier i := by
    unfold install_multiplier
    linarith
  unfold total_with_import_usd
  exact mul_pos hfob hmul

/-- Claim C9: invariant of the viability evaluator.  For valid widget inputs,
a Viable verdict guarantees a positive daily repayment and a positive net
income, hence a positive payback denominator `net_income * operating_days`,
a well-defined strictly positive `payback_years`, and a positive
`annual_repayment_usd` — the source's extra payback guard
`annual_repayment_usd > 0` can never suppress payback for a Viable result. -/
theorem viable_payback_wellposed (i : Inputs) (hv : ValidInputs i)
    (hV : viability i = Viability.Viable) :
    0 < daily_repayment_usd i ∧ 0 < net_income_per_day i ∧
    0 < net_income_per_day i * i.operating_days ∧
    0 < payback_years i ∧ 0 < annual_repayment_usd i := by
  obtain ⟨hnet, hdaily, -⟩ := (viability_eq_viable i).mp hV
  have hdays : (0:ℚ) < i.operating_days := by
    have := hv.2.2.1
    linarith
  have hden : 0 < net_income_per_day i * i.operating_days :=
    mul_pos hnet hdays
  have hann : 0 < annual_repayment_usd i := by
    have h1 : daily_repayment_usd i = annual_repayment_usd i / 365 := rfl
    rw [h1] at hdaily
    linarith
  refine ⟨hdaily, hnet, hden, ?_, hann⟩
  unfold payback_years
  exact div_pos (installed_pos i hv) hden

lemma scenario0_valid : ValidInputs scenario0 := by
  refine ⟨Or.inl rfl, ?_, ?_, ?_, ?_, ?_, ?_, ?_, ?_, ?_, ?_, ?_, ?_⟩ <;>
    norm_num [scenario0]

lemma scenario0_net : net_income_per_day scenario0 = 30/7 := by
  norm_num [net_income_per_day, income_per_day, production_per_day,
    specific_efficiency, energy_required_per_day, scenario0, mill2kW]

lemma scenario0_daily : daily_repayment_usd scenario0 = 740/219 := by
  have h3 : monthly_repayment_usd scenario0 = 925/9 := by
    rw [monthly_repayment_usd, if_neg]
    · norm_num [loan_principal_usd, total_with_import_usd, install_multiplier,
        fob_subtotal_usd, solar_panel_cost, panels_required,
        panel_energy_per_day, panel_wattage_kw, inverter_cost,
        controller_cost, battery_cost, battery_capacity,
        recommended_solar_size, energy_production, energy_required_per_day,
        panel_cost, months, scenario0, mill2kW]
    · norm_num [monthly_rate, scenario0]
  rw [daily_repayment_usd, annual_repayment_usd, h3]
  norm_num

lemma scenario0_viable : viability scenario0 = Viability.Viable := by
  rw [viability_eq_viable, scenario0_net, scenario0_daily]
  norm_num

/-- Witness for `viability_monotone_income`: the zero-interest §8 scenario is
viable at income 5/140 USD/kg, and raising the income to 1 USD/kg does not
make it NotViable. -/
theorem viability_monotone_income_witness :
    (ValidInputs scenario0 ∧ scenario0.income_per_kg ≤ 1 ∧
      viability scenario0 = Viability.Viable) ∧
    viability (set_income_per_kg scenario0 1) ≠ Viability.NotViable :=
  ⟨⟨scenario0_valid, by norm_num [scenario0], scenario0_viable⟩,
   viability_monotone_income scenario0 1 scenario0_valid
     (by norm_num [scenario0]) scenario0_viable⟩

/-- Witness for `viable_payback_wellposed` at the viable zero-interest §8
scenario. -/
theorem viable_payback_wellposed_witness :
    (ValidInputs scenario0 ∧ viability scenario0 = Viability.Viable) ∧
    (0 < daily_repayment_usd scenario0 ∧ 0 < net_income_per_day scenario0 ∧
     0 < net_income_per_day scenario0 * scenario0.operating_days ∧
     0 < payback_years scenario0 ∧ 0 < annual_repayment_usd scenario0) :=
  ⟨⟨scenario0_valid, scenario0_viable⟩,
   viable_payback_wellposed scenario0 scenario0_valid scenario0_viable⟩

end Solar
